import Mathlib

/-!
Verification development for the nvhbackend repository: a shallow embedding
of the request handlers in src/routes (auth, listings, upload) together
with theorems settling the frozen claims about them.
-/

set_option maxHeartbeats 1000000

namespace NVH

/-! ## String helpers

The handlers use JavaScript string operations: toLowerCase, trim, substring
containment (SQL ILIKE with a wildcard-wrapped term), startsWith, and split
on a fixed separator.  We model them executably on the character lists of
Lean strings.
-/

/-- Character-list version of prefix testing (Boolean, executable). -/
def isPrefixL : List Char → List Char → Bool
  | [], _ => true
  | _ :: _, [] => false
  | a :: as, b :: bs => a == b && isPrefixL as bs

/-- Substring containment on character lists: true iff needle occurs
contiguously somewhere in the haystack. -/
def containsL (needle : List Char) : List Char → Bool
  | [] => needle.isEmpty
  | c :: t => isPrefixL needle (c :: t) || containsL needle t

/-- Substring containment on strings. -/
def containsStr (needle hay : String) : Bool :=
  containsL needle.data hay.data

/-- JavaScript toLowerCase, modeled per character. -/
def lowerStr (s : String) : String :=
  ⟨s.data.map Char.toLower⟩

/-- JavaScript whitespace test for trim (space and common control whitespace). -/
def isWS (c : Char) : Bool :=
  c == ' ' || c == '\t' || c == '\n' || c == '\r'

/-- JavaScript String.trim on character lists. -/
def trimL (l : List Char) : List Char :=
  ((l.dropWhile isWS).reverse.dropWhile isWS).reverse

/-- JavaScript String.trim. -/
def trimStr (s : String) : String :=
  ⟨trimL s.data⟩

/-- JavaScript String.split with a fixed nonempty separator, scanning left
to right and consuming non-overlapping occurrences.  `skip` counts separator
characters still to consume after a match; `acc` holds the current piece
reversed. -/
def splitCore (sep : List Char) : Nat → List Char → List Char → List (List Char)
  | _, acc, [] => [acc.reverse]
  | k + 1, acc, _ :: rest => splitCore sep k acc rest
  | 0, acc, c :: rest =>
    if isPrefixL sep (c :: rest) then
      acc.reverse :: splitCore sep (sep.length - 1) [] rest
    else
      splitCore sep 0 (c :: acc) rest

/-- JavaScript `s.split(sep)` for a nonempty literal separator. -/
def splitJS (sep s : String) : List String :=
  (splitCore sep.data 0 [] s.data).map fun l => ⟨l⟩

example : splitJS "/x/" "a/x/b/x/c" = ["a", "b", "c"] := by decide
example : splitJS "/x/" "abc" = ["abc"] := by decide
example : splitJS "/x/" "a/x/" = ["a", ""] := by decide
example : trimStr "  12345 " = "12345" := by decide
example : lowerStr "A@B.Com" = "a@b.com" := by decide
example : containsStr "house" "my house is" = true := by decide
example : containsStr "housz" "my house is" = false := by decide

/-! ## SQL LIKE patterns

The listings search interpolates the user term into an ILIKE pattern
(`'%' + search + '%'`), so `%` and `_` inside the term act as wildcards
and backslash as the escape character, per PostgreSQL LIKE semantics:
`%` matches any sequence of characters, `_` exactly one character, and a
backslash makes the following character literal.  ILIKE lowercases both
sides.  The matcher is written with explicit fuel (any fuel above
pattern length + string length suffices) so that it is structurally
recursive and evaluates on concrete inputs.
-/

/-- One evaluation of a LIKE pattern against a string, consuming fuel on
every step.  A pattern whose final character is a lone backslash is a
PostgreSQL error and cannot arise from the `'%' + term + '%'` patterns the
handler builds; it is treated here as a literal backslash. -/
def likeFuel : Nat → List Char → List Char → Bool
  | 0, _, _ => false
  | _ + 1, [], s => s.isEmpty
  | n + 1, c :: p, s =>
    if c == '%' then
      (likeFuel n p s ||
        match s with
        | [] => false
        | _ :: t => likeFuel n (c :: p) t)
    else if c == '_' then
      (match s with
       | [] => false
       | _ :: t => likeFuel n p t)
    else if c == '\\' then
      (match p with
       | [] =>
         match s with
         | [] => false
         | d :: t => c == d && likeFuel n [] t
       | e :: p2 =>
         match s with
         | [] => false
         | d :: t => e == d && likeFuel n p2 t)
    else
      (match s with
       | [] => false
       | d :: t => c == d && likeFuel n p t)

/-- SQL LIKE evaluation: enough fuel for every reachable step. -/
def likeMatch (p s : List Char) : Bool :=
  likeFuel (p.length + s.length + 1) p s

/-- The ILIKE condition the handler issues for a search term: both sides
lowercased, the term wrapped in percent wildcards. -/
def sqlIlike (term value : String) : Bool :=
  likeMatch ('%' :: ((lowerStr term).data ++ ['%'])) (lowerStr value).data

/-- A character list free of the LIKE metacharacters, for which the
pattern `'%' + term + '%'` degenerates to substring containment. -/
def metaFreeL : List Char → Bool
  | [] => true
  | c :: t => !(c == '%' || c == '_' || c == '\\') && metaFreeL t

/-- The ILIKE condition against the nullable description column: SQL NULL
never satisfies ILIKE. -/
def descMatches (term : String) : Option String → Bool
  | none => false
  | some d => sqlIlike term d

example : sqlIlike "cozy" "my COZY flat" = true := by decide
example : sqlIlike "_" "Cozy flat" = true := by decide
example : sqlIlike "z_f" "az bf" = false := by decide
example : sqlIlike "o\\_o" "x o_o y" = true := by decide
example : sqlIlike "o\\_o" "x oXo y" = false := by decide

/-! ## HTTP error responses

Each failing handler ends in `res.status(code).json({ error: message })`;
we model the pair.  The spec taxonomy maps InvalidInput to 400,
Unauthorized to 401, Forbidden to 403, NotFound to 404 and
ServerMisconfigured to 500.
-/

/-- An error JSON response: HTTP status code plus error message. -/
structure ErrResp where
  status : Nat
  error : String
deriving DecidableEq, Repr

deriving instance DecidableEq for Except

/-- A JSON body string field: `none` models an absent (undefined) field,
`some s` a present string value.  JavaScript truthiness `!x` is true for
both an absent field and the empty string. -/
def jsFalsy : Option String → Bool
  | none => true
  | some s => s == ""

/-! ## Listings data model (src/routes/listings.js)

`listings(id, user_id, title, description, category, custom_category,
location, county, phone, amenities[], images[], created_at, updated_at)`.
Timestamps are unix milliseconds.  `description` and `custom_category` are
not validated at creation and may be NULL, hence Option.
-/

structure Listing where
  id : Nat
  user_id : Nat
  title : String
  description : Option String
  category : String
  custom_category : Option String
  location : String
  county : String
  phone : String
  amenities : List String
  images : List String
  created_at : Nat
  updated_at : Nat
deriving DecidableEq, Repr

/-- The database table of listings, in insertion order. -/
abbrev ListingDB := List Listing

/-- GET /listings/:id — `SELECT ... WHERE l.id = $1`, 404 when no row. -/
def getListing (id : Nat) (rows : ListingDB) : Except ErrResp Listing :=
  match rows.find? (fun l => l.id == id) with
  | none => .error ⟨404, "Listing not found"⟩
  | some l => .ok l

/-- Request body of POST /listings: every field may be absent. -/
structure CreateBody where
  title : Option String
  description : Option String
  category : Option String
  custom_category : Option String
  location : Option String
  county : Option String
  phone : Option String
  amenities : Option (List String)
  images : Option (List String)
deriving DecidableEq, Repr

/-- The row INSERTed by POST /listings: server-assigned id, creation and
update timestamps set to the insertion time, amenities defaulting to the
empty list (`amenities || []`). -/
def newListing (userId nextId now : Nat) (b : CreateBody) : Listing :=
  { id := nextId
    user_id := userId
    title := b.title.getD ""
    description := b.description
    category := b.category.getD ""
    custom_category := b.custom_category
    location := b.location.getD ""
    county := b.county.getD ""
    phone := b.phone.getD ""
    amenities := b.amenities.getD []
    images := b.images.getD []
    created_at := now
    updated_at := now }

/-- POST /listings handler.  Validates required fields by JavaScript
truthiness, requires 1 to 5 images, then INSERTs the new row.  Returns the
inserted row (RETURNING *) and the new table. -/
def createListing (userId nextId now : Nat) (b : CreateBody) (rows : ListingDB) :
    Except ErrResp (Listing × ListingDB) :=
  if jsFalsy b.title || jsFalsy b.category || jsFalsy b.location ||
      jsFalsy b.county || jsFalsy b.phone then
    .error ⟨400, "Missing required fields"⟩
  else if b.images == none || (b.images.getD []).length == 0 ||
      decide ((b.images.getD []).length > 5) then
    .error ⟨400, "Please provide 1-5 images"⟩
  else
    .ok (newListing userId nextId now b, rows ++ [newListing userId nextId now b])

/-- Request body of PUT /listings/:id, passed unvalidated to the UPDATE;
we model the nine supplied column values with their schema types. -/
structure UpdateBody where
  title : String
  description : Option String
  category : String
  custom_category : Option String
  location : String
  county : String
  phone : String
  amenities : List String
  images : List String
deriving DecidableEq, Repr

/-- The row produced by the UPDATE statement: the nine body columns are
overwritten and updated_at is set to the current time; id, user_id and
created_at are untouched. -/
def applyUpdate (r : Listing) (b : UpdateBody) (now : Nat) : Listing :=
  { r with
    title := b.title
    description := b.description
    category := b.category
    custom_category := b.custom_category
    location := b.location
    county := b.county
    phone := b.phone
    amenities := b.amenities
    images := b.images
    updated_at := now }

/-- PUT /listings/:id handler.  First `SELECT user_id WHERE id = $1`:
no row gives 404, a row owned by another user gives 403; otherwise the
UPDATE overwrites every row with this id.  Returns the updated row
(RETURNING *) and the new table. -/
def updateListing (id uid : Nat) (b : UpdateBody) (now : Nat) (rows : ListingDB) :
    Except ErrResp (Listing × ListingDB) :=
  match rows.find? (fun l => l.id == id) with
  | none => .error ⟨404, "Listing not found"⟩
  | some l =>
    if l.user_id != uid then .error ⟨403, "Not authorized"⟩
    else
      .ok (applyUpdate l b now,
        rows.map fun r => if r.id == id then applyUpdate r b now else r)

/-- DELETE /listings/:id handler.  Same ownership check as update, then
`DELETE FROM listings WHERE id = $1`.  Returns the new table. -/
def deleteListing (id uid : Nat) (rows : ListingDB) : Except ErrResp ListingDB :=
  match rows.find? (fun l => l.id == id) with
  | none => .error ⟨404, "Listing not found"⟩
  | some l =>
    if l.user_id != uid then .error ⟨403, "Not authorized"⟩
    else .ok (rows.filter fun r => !(r.id == id))

/-! ## Listing queries (GET /listings and GET /listings/user/my-listings) -/

/-- Query parameters of GET /listings: each may be absent. -/
structure ListFilters where
  category : Option String
  location : Option String
  search : Option String
deriving DecidableEq, Repr

/-- A query parameter is added to the WHERE clause only when truthy
(`if (category)` in the handler): present and nonempty. -/
def paramOn (o : Option String) : Bool := !(jsFalsy o)

/-- The WHERE clause built by GET /listings: exact category match, exact
county match for `location`, and `ILIKE '%search%'` over title OR
description — a LIKE pattern, so wildcards inside the term stay active and
a NULL description never matches.  Conditions for truthy parameters
combine by AND. -/
def matchesFilters (f : ListFilters) (l : Listing) : Bool :=
  (if paramOn f.category then l.category == f.category.getD "" else true) &&
  (if paramOn f.location then l.county == f.location.getD "" else true) &&
  (if paramOn f.search then
    sqlIlike (f.search.getD "") l.title ||
      descMatches (f.search.getD "") l.description
  else true)

/-- Newest-first comparison used by `ORDER BY l.created_at DESC`. -/
def newerEq (a b : Listing) : Prop := b.created_at ≤ a.created_at

instance : DecidableRel newerEq := fun a b => Nat.decLe b.created_at a.created_at

instance : IsTotal Listing newerEq :=
  ⟨fun a b => Nat.le_total b.created_at a.created_at⟩

instance : IsTrans Listing newerEq :=
  ⟨fun _ _ _ h1 h2 => Nat.le_trans h2 h1⟩

/-- GET /listings handler: filter rows by the built WHERE clause, order by
creation time descending (modeled by a stable sort). -/
def listListings (f : ListFilters) (rows : ListingDB) : List Listing :=
  (rows.filter (matchesFilters f)).insertionSort newerEq

/-- GET /listings/user/my-listings handler:
`SELECT * WHERE user_id = $1 ORDER BY created_at DESC`. -/
def listMine (uid : Nat) (rows : ListingDB) : List Listing :=
  (rows.filter fun l => l.user_id == uid).insertionSort newerEq

/-! ## Credential service (src/routes/auth.js and src/unnamed/part_001)

Two variants of the auth route file exist in the repository; we embed both:
`registerA`/`loginA` for src/routes/auth.js and `registerB`/`loginB` for
src/unnamed/part_001.  bcrypt is modeled symbolically: the hash value is an
opaque record of cost, salt and preimage, and compare checks the preimage.
The JWT secret is `Option String` (`none` models an unset environment
variable); `jwt.sign` is modeled as a record of the signed payload, the
secret used, and the expiry window.
-/

/-- Symbolic bcrypt output: cost factor, random salt, and the hashed
preimage (opaque one-way function modeled by a constructor). -/
inductive PasswordHash where
  | bcrypt (cost : Nat) (salt : Nat) (preimage : String)
deriving DecidableEq, Repr

/-- bcrypt.compare: the candidate matches iff it equals the preimage. -/
def bcryptCompare (pw : String) : PasswordHash → Bool
  | .bcrypt _ _ pre => pre == pw

/-- users(id, name, email, phone, password, created_at). -/
structure User where
  id : Nat
  name : String
  email : String
  phone : String
  password : PasswordHash
  created_at : Nat
deriving DecidableEq, Repr

abbrev UserDB := List User

/-- A signed session token: payload `{ userId, email }`, the signing
secret, and the expiry window in days. -/
structure Token where
  userId : Nat
  email : String
  secret : String
  expiresDays : Nat
deriving DecidableEq, Repr

/-- The user object returned to the client (`RETURNING id, name, email,
phone` shaped into the response): the password hash is not a field. -/
structure UserResp where
  id : Nat
  name : String
  email : String
  phone : String
deriving DecidableEq, Repr

/-- Successful register/login response body. -/
structure AuthOk where
  message : String
  user : UserResp
  token : Token
deriving DecidableEq, Repr

/-- JavaScript truthiness for the JWT secret environment variable:
`!process.env.JWT_SECRET` is true when unset or empty. -/
def secretFalsy : Option String → Bool
  | none => true
  | some s => s == ""

/-- POST /register of src/routes/auth.js.  Validates fields and the
untrimmed password length, rejects duplicate emails, hashes with
bcrypt cost 12 (genSalt(12)), INSERTs the user, then checks only that the
secret is truthy before signing a 7-day token.  Returns the response and
the user table after the call. -/
def registerA (db : UserDB) (name email phone password : String)
    (secret : Option String) (salt now newId : Nat) :
    Except ErrResp AuthOk × UserDB :=
  if name == "" || email == "" || phone == "" || password == "" then
    (.error ⟨400, "All fields are required"⟩, db)
  else if password.length < 6 then
    (.error ⟨400, "Password must be at least 6 characters"⟩, db)
  else
    let trimmedEmail := trimStr (lowerStr email)
    if !(db.filter fun u => u.email == trimmedEmail).isEmpty then
      (.error ⟨400, "Email already registered"⟩, db)
    else
      let hashed := PasswordHash.bcrypt 12 salt password
      let user : User :=
        ⟨newId, trimStr name, trimmedEmail, trimStr phone, hashed, now⟩
      let db' := db ++ [user]
      if secretFalsy secret then
        (.error ⟨500, "Server configuration error"⟩, db')
      else
        (.ok ⟨"User registered successfully",
          ⟨user.id, user.name, user.email, user.phone⟩,
          ⟨user.id, user.email, secret.getD "", 7⟩⟩, db')

/-- POST /register of src/unnamed/part_001.  Logs the whole request body
on entry, validates fields and the trimmed password length, rejects
duplicate emails, hashes the trimmed password with bcrypt cost 12, INSERTs
the user, then requires the secret to be truthy AND at least 20 characters
before signing a 30-day token.  Returns the response, the user table after
the call, and the console log lines. -/
def registerB (db : UserDB) (name email phone password : String)
    (secret : Option String) (salt now newId : Nat) :
    Except ErrResp AuthOk × UserDB × List String :=
  let log0 := ["Registration attempt: " ++ name ++ " " ++ email ++ " " ++
    phone ++ " " ++ password]
  if name == "" || email == "" || phone == "" || password == "" then
    (.error ⟨400, "All fields are required"⟩, db, log0)
  else if (trimStr password).length < 6 then
    (.error ⟨400, "Password must be at least 6 characters"⟩, db, log0)
  else
    let cleanEmail := trimStr (lowerStr email)
    if !(db.filter fun u => u.email == cleanEmail).isEmpty then
      (.error ⟨400, "Email already registered"⟩, db,
        log0 ++ ["Duplicate email attempt: " ++ cleanEmail])
    else
      let hashed := PasswordHash.bcrypt 12 salt (trimStr password)
      let user : User :=
        ⟨newId, trimStr name, cleanEmail, trimStr phone, hashed, now⟩
      let db' := db ++ [user]
      let log1 := log0 ++
        ["New user created: " ++ toString user.id ++ " " ++ user.email]
      if secretFalsy secret || (secret.getD "").length < 20 then
        (.error ⟨500, "Server configuration error. Contact admin."⟩, db',
          log1 ++ ["FATAL: JWT_SECRET is missing or too short!"])
      else
        (.ok ⟨"Registration successful!",
          ⟨user.id, user.name, user.email, user.phone⟩,
          ⟨user.id, user.email, secret.getD "", 30⟩⟩, db', log1)

/-- POST /login of src/routes/auth.js.  Unknown email and wrong password
both answer 401 with the same message; a found user with a matching
password gets a 7-day token if the secret is truthy, else 500. -/
def loginA (db : UserDB) (email password : String) (secret : Option String) :
    Except ErrResp AuthOk :=
  if email == "" || password == "" then
    .error ⟨400, "Email and password are required"⟩
  else
    let trimmedEmail := trimStr (lowerStr email)
    match db.find? (fun u => u.email == trimmedEmail) with
    | none => .error ⟨401, "Invalid email or password"⟩
    | some user =>
      if !(bcryptCompare password user.password) then
        .error ⟨401, "Invalid email or password"⟩
      else if secretFalsy secret then
        .error ⟨500, "Server configuration error"⟩
      else
        .ok ⟨"Login successful",
          ⟨user.id, user.name, user.email, user.phone⟩,
          ⟨user.id, user.email, secret.getD "", 7⟩⟩

/-- POST /login of src/unnamed/part_001.  Same structure as loginA but a
30-day token and a different misconfiguration message; the secret length
is again not checked here. -/
def loginB (db : UserDB) (email password : String) (secret : Option String) :
    Except ErrResp AuthOk :=
  if email == "" || password == "" then
    .error ⟨400, "Email and password are required"⟩
  else
    let cleanEmail := trimStr (lowerStr email)
    match db.find? (fun u => u.email == cleanEmail) with
    | none => .error ⟨401, "Invalid email or password"⟩
    | some user =>
      if !(bcryptCompare password user.password) then
        .error ⟨401, "Invalid email or password"⟩
      else if secretFalsy secret then
        .error ⟨500, "Server error"⟩
      else
        .ok ⟨"Login successful",
          ⟨user.id, user.name, user.email, user.phone⟩,
          ⟨user.id, user.email, secret.getD "", 30⟩⟩

/-! ## Media service (src/routes/upload.js)

The upload route runs multer (memory storage, 5 MB size limit, image-only
file filter, field limit of 5 files) and then, per file, derives the key
`listings/<userId>/<Date.now()>-<randomToken>-<originalname>`, uploads with
`upsert: false`, and collects the public URL.  multer processes the files
of the multipart stream in order; for each it first checks the field count
against the max, then the mime filter, and the size limit fires while the
accepted file streams.
-/

structure UploadFile where
  originalname : String
  mimetype : String
  size : Nat
deriving DecidableEq, Repr

/-- Error taxonomy of the media service in the spec. -/
inductive MediaErr where
  | invalidInput (msg : String)
  | invalidFileType
  | tooLarge
deriving DecidableEq, Repr

def fileSizeLimit : Nat := 5 * 1024 * 1024

/-- multer fileFilter: content type must start with image/. -/
def isImageFile (f : UploadFile) : Bool :=
  isPrefixL "image/".data f.mimetype.data

/-- multer pass over the multipart files in order: count limit first
(LIMIT_UNEXPECTED_FILE beyond 5), then the image filter, then the size
limit. -/
def multerScan : Nat → List UploadFile → Except MediaErr (List UploadFile)
  | _, [] => .ok []
  | count, f :: rest =>
    if count ≥ 5 then .error (.invalidInput "Too many files")
    else if !(isImageFile f) then .error .invalidFileType
    else if fileSizeLimit < f.size then .error .tooLarge
    else (multerScan (count + 1) rest).map (f :: ·)

/-- The storage key derived per file. -/
def storageKey (uid millis : Nat) (token name : String) : String :=
  "listings/" ++ toString uid ++ "/" ++ toString millis ++ "-" ++ token ++
    "-" ++ name

/-- The public URL supabase returns for a key of the house-images bucket. -/
def publicUrl (base key : String) : String :=
  base ++ "/storage/v1/object/public/house-images/" ++ key

/-- One storage upload request: key, content type, and overwrite flag. -/
structure StorageUpload where
  key : String
  contentType : String
  upsert : Bool
deriving DecidableEq, Repr

/-- The loop body of the POST / handler: the i-th file is stored under
`storageKey uid (now i) (tok i) name` with `upsert: false`. -/
def buildUploads (uid : Nat) (now : Nat → Nat) (tok : Nat → String) :
    Nat → List UploadFile → List StorageUpload
  | _, [] => []
  | i, f :: rest =>
    ⟨storageKey uid (now i) (tok i) f.originalname, f.mimetype, false⟩ ::
      buildUploads uid now tok (i + 1) rest

/-- POST /upload handler: multer pass, then the emptiness and count
checks of the route body, then the upload loop.  On success returns the
issued storage requests and the public URLs in input order. -/
def uploadImages (base : String) (uid : Nat) (now : Nat → Nat)
    (tok : Nat → String) (files : List UploadFile) :
    Except MediaErr (List StorageUpload × List String) :=
  match multerScan 0 files with
  | .error e => .error e
  | .ok fs =>
    if fs.length == 0 then .error (.invalidInput "No files uploaded")
    else if decide (fs.length > 5) then
      .error (.invalidInput "Maximum 5 images allowed")
    else
      let reqs := buildUploads uid now tok 0 fs
      .ok (reqs, reqs.map fun r => publicUrl base r.key)

/-- The storage path marker of DELETE /upload/image. -/
def houseMarker : String := "/house-images/"

/-- DELETE /upload/image handler.  `userId` is the authenticated caller
attached by the auth middleware; the body never reads it.  The URL is
split at the marker; fewer than two parts is rejected, otherwise the
element at index 1 of the split is the key passed to storage remove. -/
def deleteImage (userId : Nat) (imageUrl : String) : Except ErrResp String :=
  if imageUrl == "" then .error ⟨400, "Image URL required"⟩
  else if (splitJS houseMarker imageUrl).length < 2 then
    .error ⟨400, "Invalid image URL"⟩
  else .ok ((splitJS houseMarker imageUrl).getD 1 "")

/-! ## Sample data for witnesses and counterexamples -/

def sampleListing1 : Listing :=
  ⟨1, 10, "Cozy flat", some "Near the park", "apartment", none,
    "Nairobi West", "Nairobi", "0700000001", ["wifi"], ["u1"], 100, 100⟩

def sampleListing2 : Listing :=
  ⟨2, 20, "Farm house", none, "house", none,
    "Nakuru town", "Nakuru", "0700000002", [], ["u2"], 200, 200⟩

def sampleRows : ListingDB := [sampleListing1, sampleListing2]

def sampleUpdate : UpdateBody :=
  ⟨"New title", some "New desc", "house", none, "Karen", "Nairobi",
    "0711000000", ["parking"], ["u3"]⟩

/-- A create body whose title is present but empty, all other requirements
met, with two images. -/
def emptyTitleBody : CreateBody :=
  ⟨some "", some "desc", some "apartment", none, some "Westlands",
    some "Nairobi", some "0700111222", none, some ["u1", "u2"]⟩

/-- A fully valid create body with one image and no amenities field. -/
def goodCreateBody : CreateBody :=
  ⟨some "Cozy flat", some "desc", some "apartment", none, some "Westlands",
    some "Nairobi", some "0700111222", none, some ["img1"]⟩

/-- A create body with an empty image array. -/
def zeroImagesBody : CreateBody :=
  ⟨some "Cozy flat", some "desc", some "apartment", none, some "Westlands",
    some "Nairobi", some "0700111222", none, some []⟩

def sampleUser : User :=
  ⟨1, "Ann", "a@b.c", "0700111222", .bcrypt 12 3 "hunter22", 50⟩

def sampleFiles : List UploadFile :=
  [⟨"a.png", "image/png", 100⟩, ⟨"b.jpg", "image/jpeg", 2048⟩]

/-! ## Lemmas about the split scan -/

theorem isPrefixL_append_self (s r : List Char) : isPrefixL s (s ++ r) = true := by
  induction s with
  | nil => rfl
  | cons c t ih => simp [isPrefixL, ih]

theorem splitCore_nil (sep : List Char) (k : Nat) (acc : List Char) :
    splitCore sep k acc [] = [acc.reverse] := by
  cases k <;> rfl

/-- Skipping `a.length` characters resumes the scan after `a`. -/
theorem splitCore_drop (sep : List Char) (acc : List Char) :
    ∀ a r : List Char, splitCore sep a.length acc (a ++ r) = splitCore sep 0 acc r := by
  intro a
  induction a with
  | nil => intro r; rfl
  | cons c t ih => intro r; simpa [splitCore] using ih r

/-- A scan standing exactly at an occurrence of the separator emits the
accumulated piece and resumes after the separator. -/
theorem splitCore_sep (sep : List Char) (hsep : sep ≠ []) (acc r : List Char) :
    splitCore sep 0 acc (sep ++ r) = acc.reverse :: splitCore sep 0 [] r := by
  match sep, hsep with
  | c :: s, _ =>
    show splitCore (c :: s) 0 acc (c :: (s ++ r)) = _
    rw [splitCore]
    have hp : isPrefixL (c :: s) (c :: (s ++ r)) = true :=
      isPrefixL_append_self (c :: s) r
    rw [if_pos hp]
    have h : (c :: s).length - 1 = s.length := by simp
    rw [h]
    rw [splitCore_drop]

/-- The scan always returns at least one piece. -/
theorem splitCore_length_pos (sep : List Char) :
    ∀ (l : List Char) (k : Nat) (acc : List Char),
      1 ≤ (splitCore sep k acc l).length := by
  intro l
  induction l with
  | nil => intro k acc; rw [splitCore_nil]; simp
  | cons c rest ih =>
    intro k acc
    cases k with
    | zero =>
      rw [splitCore]
      split
      · simp
      · exact ih 0 (c :: acc)
    | succ j => rw [splitCore]; exact ih j acc

/-- When the separator occurs nowhere, the scan returns the single piece
consisting of everything. -/
theorem splitCore_no_occurrence (sep : List Char) :
    ∀ (l : List Char) (acc : List Char), containsL sep l = false →
      splitCore sep 0 acc l = [acc.reverse ++ l] := by
  intro l
  induction l with
  | nil => intro acc _; rw [splitCore_nil]; simp
  | cons c rest ih =>
    intro acc h
    rw [containsL, Bool.or_eq_false_iff] at h
    rw [splitCore, if_neg (by simp [h.1])]
    rw [ih (c :: acc) h.2]
    simp

/-- Advancing the scan over a stretch in which no occurrence of the
separator starts moves it into the accumulator. -/
theorem splitCore_advance (sep : List Char) :
    ∀ (a r acc : List Char),
      (∀ i, i < a.length → isPrefixL sep ((a ++ r).drop i) = false) →
      splitCore sep 0 acc (a ++ r) = splitCore sep 0 (a.reverse ++ acc) r := by
  intro a
  induction a with
  | nil => intro r acc _; rfl
  | cons c t ih =>
    intro r acc h
    have h0 : isPrefixL sep (c :: (t ++ r)) = false := by
      have := h 0 (by simp)
      simpa using this
    rw [show (c :: t) ++ r = c :: (t ++ r) from rfl]
    rw [splitCore, if_neg (by simp [h0])]
    rw [ih r (c :: acc) (fun i hi => by
      have := h (i + 1) (by simpa using Nat.succ_lt_succ hi)
      simpa using this)]
    simp

/-- An occurrence of the separator somewhere guarantees at least two
pieces. -/
theorem splitCore_two_of_contains (sep : List Char) (hsep : sep ≠ []) :
    ∀ (l acc : List Char), containsL sep l = true →
      2 ≤ (splitCore sep 0 acc l).length := by
  intro l
  induction l with
  | nil =>
    intro acc h
    rw [containsL] at h
    exact absurd h (by simp [List.isEmpty_iff, hsep])
  | cons c rest ih =>
    intro acc h
    rw [containsL, Bool.or_eq_true] at h
    by_cases hp : isPrefixL sep (c :: rest) = true
    · rw [splitCore, if_pos hp]
      have := splitCore_length_pos sep rest (sep.length - 1) []
      simp only [List.length_cons]
      omega
    · rw [splitCore, if_neg hp]
      exact ih (c :: acc) (h.resolve_left hp)

/-! ## Claim theorems about the media service -/

theorem houseMarker_data_ne : houseMarker.data ≠ [] := by decide

/-- C3: the DELETE /upload/image handler checks only authentication and the
presence of the storage path marker; the authenticated caller identity has
no influence on the outcome, and for every URL containing the marker a
storage delete is issued, whichever key of whichever user it names. -/
theorem deleteImage_caller_has_no_influence (u1 u2 : Nat) (url : String) :
    deleteImage u1 url = deleteImage u2 url ∧
    (containsL houseMarker.data url.data = true →
      ∃ k, deleteImage u1 url = .ok k) := by
  refine ⟨rfl, fun h => ?_⟩
  have hne : (url == "") = false := by
    cases heq : url == "" with
    | false => rfl
    | true =>
      have heq2 : url = "" := eq_of_beq heq
      subst heq2
      rw [containsL] at h
      exact absurd h (by simp [houseMarker_data_ne, List.isEmpty_iff])
  have h2 : 2 ≤ (splitCore houseMarker.data 0 [] url.data).length :=
    splitCore_two_of_contains _ houseMarker_data_ne _ _ h
  have hlen : ¬ (splitJS houseMarker url).length < 2 := by
    rw [splitJS, List.length_map]; omega
  rw [deleteImage, if_neg (by simp [hne]), if_neg hlen]
  exact ⟨_, rfl⟩

/-- C9 counterexample: for a URL in which the storage path marker occurs
twice, the key passed to the storage delete is only the segment between
the first and the second occurrence, not the entire suffix after the
first marker as the claim states. -/
theorem deleteImage_whole_suffix_counterexample :
    deleteImage 7 "x/house-images/a/house-images/b.png" = .ok "a" ∧
    ("a" : String) ≠ "a/house-images/b.png" := by
  constructor
  · decide
  · decide

/-- C9 (amended): deleteImage fails InvalidInput (status 400) exactly when
the URL is absent or lacks the marker; for a URL with a single marker
occurrence the key is the entire suffix after it; when the marker occurs
again, the key is only the segment between the first and second
occurrences. -/
theorem deleteImage_key_extraction (u : Nat) (url : String) :
    ((∃ msg, deleteImage u url = .error ⟨400, msg⟩) ↔
      containsL houseMarker.data url.data = false) ∧
    (∀ a b, url.data = a ++ houseMarker.data ++ b →
      (∀ i, i < a.length →
        isPrefixL houseMarker.data ((a ++ houseMarker.data ++ b).drop i) = false) →
      containsL houseMarker.data b = false →
      deleteImage u url = .ok ⟨b⟩) ∧
    (∀ a b c, url.data = a ++ houseMarker.data ++ b ++ houseMarker.data ++ c →
      (∀ i, i < a.length →
        isPrefixL houseMarker.data
          ((a ++ houseMarker.data ++ b ++ houseMarker.data ++ c).drop i) = false) →
      (∀ i, i < b.length →
        isPrefixL houseMarker.data ((b ++ houseMarker.data ++ c).drop i) = false) →
      deleteImage u url = .ok ⟨b⟩) := by
  refine ⟨?_, ?_, ?_⟩
  · by_cases he : url = ""
    · subst he
      constructor
      · intro _
        rw [containsL]
        simp [houseMarker_data_ne, List.isEmpty_iff]
      · intro _; exact ⟨"Image URL required", rfl⟩
    · have hne : (url == "") = false := by simp [he]
      cases hc : containsL houseMarker.data url.data with
      | true =>
        have h2 : 2 ≤ (splitCore houseMarker.data 0 [] url.data).length :=
          splitCore_two_of_contains _ houseMarker_data_ne _ _ hc
        have hlen : ¬ (splitJS houseMarker url).length < 2 := by
          rw [splitJS, List.length_map]; omega
        rw [deleteImage, if_neg (by simp [hne]), if_neg hlen]
        constructor
        · rintro ⟨msg, hmsg⟩; exact absurd hmsg (by simp)
        · intro h; exact absurd h (by simp)
      | false =>
        have hsplit : splitCore houseMarker.data 0 [] url.data = [url.data] := by
          simpa using splitCore_no_occurrence houseMarker.data url.data [] hc
        have hlen : (splitJS houseMarker url).length < 2 := by
          rw [splitJS, hsplit]; simp
        rw [deleteImage, if_neg (by simp [hne]), if_pos hlen]
        exact ⟨fun _ => rfl, fun _ => ⟨"Invalid image URL", rfl⟩⟩
  · intro a b hurl hfree hb
    have hnil : url.data ≠ [] := by
      rw [hurl]
      simp [houseMarker_data_ne]
    have hne : (url == "") = false := by
      cases heq : url == "" with
      | false => rfl
      | true =>
        have heq2 : url = "" := eq_of_beq heq
        exact absurd (heq2 ▸ hnil) (by simp)
    have hsplit : splitCore houseMarker.data 0 [] url.data = [a, b] := by
      rw [hurl, List.append_assoc]
      rw [splitCore_advance houseMarker.data a (houseMarker.data ++ b) []
        (fun i hi => by
          have := hfree i hi
          rwa [List.append_assoc] at this)]
      rw [splitCore_sep houseMarker.data houseMarker_data_ne]
      rw [splitCore_no_occurrence houseMarker.data b [] hb]
      simp
    have hlen : ¬ (splitJS houseMarker url).length < 2 := by
      rw [splitJS, hsplit]; simp
    rw [deleteImage, if_neg (by simp [hne]), if_neg hlen]
    rw [splitJS, hsplit]
    rfl
  · intro a b c hurl hfree hbfree
    have hnil : url.data ≠ [] := by
      rw [hurl]
      simp [houseMarker_data_ne]
    have hne : (url == "") = false := by
      cases heq : url == "" with
      | false => rfl
      | true =>
        have heq2 : url = "" := eq_of_beq heq
        exact absurd (heq2 ▸ hnil) (by simp)
    have hsplit : splitCore houseMarker.data 0 [] url.data =
        a :: b :: splitCore houseMarker.data 0 [] c := by
      have hurl' : url.data =
          a ++ (houseMarker.data ++ (b ++ (houseMarker.data ++ c))) := by
        rw [hurl]; simp [List.append_assoc]
      rw [hurl']
      rw [splitCore_advance houseMarker.data a
        (houseMarker.data ++ (b ++ (houseMarker.data ++ c))) []
        (fun i hi => by
          have := hfree i hi
          rwa [show a ++ houseMarker.data ++ b ++ houseMarker.data ++ c =
            a ++ (houseMarker.data ++ (b ++ (houseMarker.data ++ c))) by
              simp [List.append_assoc]] at this)]
      rw [splitCore_sep houseMarker.data houseMarker_data_ne]
      rw [splitCore_advance houseMarker.data b (houseMarker.data ++ c) []
        (fun i hi => by
          have := hbfree i hi
          rwa [List.append_assoc] at this)]
      rw [splitCore_sep houseMarker.data houseMarker_data_ne]
      simp
    have hlen : ¬ (splitJS houseMarker url).length < 2 := by
      rw [splitJS, hsplit]; simp
    rw [deleteImage, if_neg (by simp [hne]), if_neg hlen]
    rw [splitJS, hsplit]
    rfl

/-- Witness for the caller-independence of deleteImage: caller 1 issues a
delete of a key under the listings folder of user 2. -/
theorem deleteImage_caller_has_no_influence_witness :
    deleteImage 1 "s/house-images/listings/2/pic.png" =
      deleteImage 2 "s/house-images/listings/2/pic.png" ∧
    ∃ k, deleteImage 1 "s/house-images/listings/2/pic.png" = .ok k := by
  have h := deleteImage_caller_has_no_influence 1 2
    "s/house-images/listings/2/pic.png"
  exact ⟨h.1, h.2 (by decide)⟩

/-- Witness for the key-extraction theorem at a marker-free URL and at a
single-marker URL. -/
theorem deleteImage_key_extraction_witness :
    (∃ msg, deleteImage 3 "nope" = Except.error ⟨400, msg⟩) ∧
    deleteImage 3 "s/house-images/k.png" = .ok "k.png" := by
  constructor
  · exact (deleteImage_key_extraction 3 "nope").1.mpr (by decide)
  · exact (deleteImage_key_extraction 3 "s/house-images/k.png").2.1
      "s".data "k.png".data (by decide) (by decide) (by decide)

/-! ## Claim theorems about listing mutation (C1) -/

/-- find? commutes with a map that preserves the predicate. -/
theorem find?_map_of_pred (p : Listing → Bool) (g : Listing → Listing)
    (hp : ∀ r, p (g r) = p r) :
    ∀ rows : List Listing, (rows.map g).find? p = (rows.find? p).map g := by
  intro rows
  induction rows with
  | nil => rfl
  | cons r t ih =>
    rw [List.map_cons, List.find?_cons, List.find?_cons, hp r]
    cases hr : p r with
    | true => rfl
    | false => exact ih

/-- find? fails on a list filtered to the complement of the predicate. -/
theorem find?_filter_compl (p : Listing → Bool) (rows : List Listing) :
    (rows.filter fun r => !(p r)).find? p = none := by
  rw [List.find?_eq_none]
  intro x hx
  have := (List.mem_filter.mp hx).2
  simp at this
  simp [this]

/-- C1: update and delete re-run the ownership lookup on the current table
on every call.  A missing id answers 404 NotFound for both; a row owned by
another user answers 403 Forbidden for both and the table is returned
unchanged only through the error (no UPDATE or DELETE is issued); for the
owner, update overwrites all nine body columns wholesale, refreshes
updated_at and keeps id, owner and created_at, and a subsequent get of the
id returns the updated row; delete removes the row and a subsequent get of
the id answers 404 NotFound. -/
theorem listing_mutation_ownership (id uid now : Nat) (b : UpdateBody)
    (rows : ListingDB) :
    (rows.find? (fun l => l.id == id) = none →
      updateListing id uid b now rows = .error ⟨404, "Listing not found"⟩ ∧
      deleteListing id uid rows = .error ⟨404, "Listing not found"⟩) ∧
    (∀ l, rows.find? (fun l => l.id == id) = some l → l.user_id ≠ uid →
      updateListing id uid b now rows = .error ⟨403, "Not authorized"⟩ ∧
      deleteListing id uid rows = .error ⟨403, "Not authorized"⟩) ∧
    (∀ l, rows.find? (fun l => l.id == id) = some l → l.user_id = uid →
      (∃ st, updateListing id uid b now rows = .ok (applyUpdate l b now, st) ∧
        getListing id st = .ok (applyUpdate l b now)) ∧
      (applyUpdate l b now).title = b.title ∧
      (applyUpdate l b now).description = b.description ∧
      (applyUpdate l b now).category = b.category ∧
      (applyUpdate l b now).custom_category = b.custom_category ∧
      (applyUpdate l b now).location = b.location ∧
      (applyUpdate l b now).county = b.county ∧
      (applyUpdate l b now).phone = b.phone ∧
      (applyUpdate l b now).amenities = b.amenities ∧
      (applyUpdate l b now).images = b.images ∧
      (applyUpdate l b now).updated_at = now ∧
      (applyUpdate l b now).id = l.id ∧
      (applyUpdate l b now).user_id = l.user_id ∧
      (applyUpdate l b now).created_at = l.created_at ∧
      (∃ st, deleteListing id uid rows = .ok st ∧
        getListing id st = .error ⟨404, "Listing not found"⟩)) := by
  refine ⟨fun h => ?_, fun l hl hne => ?_, fun l hl huid => ?_⟩
  · rw [updateListing, deleteListing, h]
    exact ⟨rfl, rfl⟩
  · simp only [updateListing, deleteListing, hl]
    rw [if_pos (by simpa using hne), if_pos (by simpa using hne)]
    exact ⟨rfl, rfl⟩
  · have hfound : (l.id == id) = true := by
      have h2 := List.find?_some hl
      simpa using h2
    refine ⟨?_, rfl, rfl, rfl, rfl, rfl, rfl, rfl, rfl, rfl, rfl, rfl, rfl, rfl, ?_⟩
    · refine ⟨rows.map fun r => if r.id == id then applyUpdate r b now else r,
        ?_, ?_⟩
      · simp only [updateListing, hl]
        rw [if_neg (by simp [huid])]
      · rw [getListing]
        rw [find?_map_of_pred (fun r => r.id == id)
          (fun r => if r.id == id then applyUpdate r b now else r)
          (fun r => by by_cases hid : r.id == id <;> simp [hid, applyUpdate])]
        rw [hl]
        simp only [Option.map]
        rw [if_pos hfound]
    · refine ⟨rows.filter fun r => !(r.id == id), ?_, ?_⟩
      · simp only [deleteListing, hl]
        rw [if_neg (by simp [huid])]
      · rw [getListing, find?_filter_compl]

/-- Witness for the ownership theorem: a missing id gives 404, a non-owner
gives 403, and the owner can delete after which get answers 404. -/
theorem listing_mutation_ownership_witness :
    updateListing 3 10 sampleUpdate 500 sampleRows =
      .error ⟨404, "Listing not found"⟩ ∧
    deleteListing 1 20 sampleRows = .error ⟨403, "Not authorized"⟩ ∧
    (∃ st, deleteListing 1 10 sampleRows = .ok st ∧
      getListing 1 st = .error ⟨404, "Listing not found"⟩) := by
  refine ⟨?_, ?_, ?_⟩
  · exact ((listing_mutation_ownership 3 10 500 sampleUpdate sampleRows).1
      (by decide)).1
  · exact ((listing_mutation_ownership 1 20 500 sampleUpdate sampleRows).2.1
      sampleListing1 (by decide) (by decide)).2
  · exact (((listing_mutation_ownership 1 10 500 sampleUpdate sampleRows).2.2
      sampleListing1 (by decide) rfl).2).2.2.2.2.2.2.2.2.2.2.2.2.2

/-! ## Claim theorems about listing creation (C7) -/

/-- C7 counterexample: a create body in which every required field is
present and the image count is 2 is nevertheless rejected InvalidInput,
because the title is the empty string and the handler tests JavaScript
truthiness, not absence. -/
theorem create_absent_only_counterexample :
    createListing 10 1 100 emptyTitleBody [] =
      .error ⟨400, "Missing required fields"⟩ ∧
    emptyTitleBody.title ≠ none ∧ emptyTitleBody.category ≠ none ∧
    emptyTitleBody.location ≠ none ∧ emptyTitleBody.county ≠ none ∧
    emptyTitleBody.phone ≠ none ∧
    (emptyTitleBody.images.getD []).length = 2 := by
  refine ⟨by decide, by decide, by decide, by decide, by decide, by decide,
    by decide⟩

/-- C7 (amended): create fails InvalidInput (status 400) exactly when a
required field is absent or the empty string, or the images field is
absent, or the image count is 0 or more than 5; on success the listing is
persisted (appended) with the server-assigned id, creation timestamp set
to the current time, and amenities defaulting to the empty list when
absent. -/
theorem create_listing_validation (uid nid now : Nat) (b : CreateBody)
    (rows : ListingDB) :
    ((∃ msg, createListing uid nid now b rows = .error ⟨400, msg⟩) ↔
      ((jsFalsy b.title = true ∨ jsFalsy b.category = true ∨
        jsFalsy b.location = true ∨ jsFalsy b.county = true ∨
        jsFalsy b.phone = true) ∨
       (b.images = none ∨ (b.images.getD []).length = 0 ∨
        5 < (b.images.getD []).length))) ∧
    (∀ l st, createListing uid nid now b rows = .ok (l, st) →
      l.id = nid ∧ l.created_at = now ∧ l.user_id = uid ∧
      l.amenities = b.amenities.getD [] ∧ l.images = b.images.getD [] ∧
      st = rows ++ [l]) := by
  constructor
  · constructor
    · intro hex
      by_cases h1 : (jsFalsy b.title || jsFalsy b.category ||
          jsFalsy b.location || jsFalsy b.county || jsFalsy b.phone) = true
      · refine Or.inl ?_
        simp only [Bool.or_eq_true] at h1
        tauto
      · by_cases h2 : (b.images == none || (b.images.getD []).length == 0 ||
            decide ((b.images.getD []).length > 5)) = true
        · refine Or.inr ?_
          simp only [Bool.or_eq_true, beq_iff_eq, decide_eq_true_eq] at h2
          tauto
        · obtain ⟨msg, hmsg⟩ := hex
          rw [createListing, if_neg h1, if_neg h2] at hmsg
          exact absurd hmsg (by simp)
    · intro hcond
      by_cases h1 : (jsFalsy b.title || jsFalsy b.category ||
          jsFalsy b.location || jsFalsy b.county || jsFalsy b.phone) = true
      · exact ⟨"Missing required fields", by rw [createListing, if_pos h1]⟩
      · rcases hcond with h | h
        · refine absurd ?_ h1
          simp only [Bool.or_eq_true]
          tauto
        · refine ⟨"Please provide 1-5 images", ?_⟩
          rw [createListing, if_neg h1, if_pos ?_]
          simp only [Bool.or_eq_true, beq_iff_eq, decide_eq_true_eq]
          tauto
  · intro l st hok
    by_cases h1 : (jsFalsy b.title || jsFalsy b.category ||
        jsFalsy b.location || jsFalsy b.county || jsFalsy b.phone) = true
    · rw [createListing, if_pos h1] at hok
      exact absurd hok (by simp)
    · by_cases h2 : (b.images == none || (b.images.getD []).length == 0 ||
          decide ((b.images.getD []).length > 5)) = true
      · rw [createListing, if_neg h1, if_pos h2] at hok
        exact absurd hok (by simp)
      · rw [createListing, if_neg h1, if_neg h2] at hok
        rw [Except.ok.injEq, Prod.mk.injEq] at hok
        obtain ⟨hl, hst⟩ := hok
        subst hl
        exact ⟨rfl, rfl, rfl, rfl, rfl, hst.symm⟩

/-- Witness for create validation: a valid one-image body succeeds with
the expected persisted row, and a zero-image body fails InvalidInput. -/
theorem create_listing_validation_witness :
    ((newListing 10 1 100 goodCreateBody).id = 1 ∧
      (newListing 10 1 100 goodCreateBody).created_at = 100 ∧
      (newListing 10 1 100 goodCreateBody).user_id = 10 ∧
      (newListing 10 1 100 goodCreateBody).amenities =
        goodCreateBody.amenities.getD [] ∧
      (newListing 10 1 100 goodCreateBody).images =
        goodCreateBody.images.getD [] ∧
      ([newListing 10 1 100 goodCreateBody] : ListingDB) =
        [] ++ [newListing 10 1 100 goodCreateBody]) ∧
    (∃ msg, createListing 10 1 100 zeroImagesBody [] =
      Except.error ⟨400, msg⟩) := by
  constructor
  · exact (create_listing_validation 10 1 100 goodCreateBody []).2
      (newListing 10 1 100 goodCreateBody)
      [newListing 10 1 100 goodCreateBody] (by decide)
  · exact (create_listing_validation 10 1 100 zeroImagesBody []).1.mpr
      (Or.inr (Or.inr (Or.inl (by decide))))

/-! ## Claim theorems about listing queries (C6) -/

/-- An exact-match SQL condition added only when the parameter is truthy,
characterized against the parameter option. -/
theorem exact_filter_iff (o : Option String) (v : String) :
    (if paramOn o then v == o.getD "" else true) = true ↔
      (∀ c, o = some c → c ≠ "" → v = c) := by
  cases o with
  | none => simp [paramOn, jsFalsy]
  | some c =>
    by_cases hc : c = ""
    · subst hc
      simp [paramOn, jsFalsy]
    · simp [paramOn, jsFalsy, hc]

/-- Unfolding step of likeFuel at zero remaining pattern. -/
theorem likeFuel_nil (m : Nat) (s : List Char) :
    likeFuel (m + 1) [] s = s.isEmpty := by
  rw [likeFuel.eq_def]

/-- Unfolding step of likeFuel at a pattern character. -/
theorem likeFuel_cons (m : Nat) (a : Char) (p s : List Char) :
    likeFuel (m + 1) (a :: p) s =
      (if a == '%' then
        (likeFuel m p s ||
          match s with
          | [] => false
          | _ :: t => likeFuel m (a :: p) t)
      else if a == '_' then
        (match s with
         | [] => false
         | _ :: t => likeFuel m p t)
      else if a == '\\' then
        (match p with
         | [] =>
           match s with
           | [] => false
           | d :: t => a == d && likeFuel m [] t
         | e :: p2 =>
           match s with
           | [] => false
           | d :: t => e == d && likeFuel m p2 t)
      else
        (match s with
         | [] => false
         | d :: t => a == d && likeFuel m p t)) := by
  rw [likeFuel.eq_def]

/-- A pattern consisting of a single percent matches every string. -/
theorem likeFuel_tail_percent :
    ∀ (s : List Char) (n : Nat), 1 + s.length < n →
      likeFuel n ['%'] s = true := by
  intro s
  induction s with
  | nil =>
    intro n h
    cases n with
    | zero => omega
    | succ m =>
      cases m with
      | zero => omega
      | succ k =>
        rw [likeFuel_cons, if_pos (by decide), likeFuel_nil]
        simp
  | cons c t ih =>
    intro n h
    cases n with
    | zero => omega
    | succ m =>
      rw [likeFuel_cons, if_pos (by decide)]
      show (likeFuel m [] (c :: t) || likeFuel m ['%'] t) = true
      rw [ih m (by simp at h ⊢; omega)]
      simp

/-- A metacharacter-free literal followed by a percent matches exactly
the strings it is a prefix of. -/
theorem likeFuel_lit_percent :
    ∀ (lit : List Char), metaFreeL lit = true →
      ∀ (s : List Char) (n : Nat), lit.length + 1 + s.length < n →
        likeFuel n (lit ++ ['%']) s = isPrefixL lit s := by
  intro lit
  induction lit with
  | nil =>
    intro _ s n h
    simp only [List.nil_append]
    rw [likeFuel_tail_percent s n (by simpa using h)]
    rfl
  | cons a lit ih =>
    intro hfree s n h
    rw [metaFreeL, Bool.and_eq_true] at hfree
    obtain ⟨ha, hrest⟩ := hfree
    have ha2 : (a == '%') = false ∧ (a == '_') = false ∧ (a == '\\') = false := by
      simp only [Bool.not_eq_true', Bool.or_eq_false_iff] at ha
      exact ⟨ha.1.1, ha.1.2, ha.2⟩
    cases n with
    | zero => omega
    | succ m =>
      show likeFuel (m + 1) (a :: (lit ++ ['%'])) s = _
      rw [likeFuel_cons, if_neg (by simp [ha2.1]), if_neg (by simp [ha2.2.1]),
        if_neg (by simp [ha2.2.2])]
      cases s with
      | nil => rfl
      | cons d t =>
        show (a == d && likeFuel m (lit ++ ['%']) t) = isPrefixL (a :: lit) (d :: t)
        rw [ih hrest t m (by simp at h ⊢; omega)]
        rfl

/-- The full handler pattern `'%' + lit + '%'` with a metacharacter-free
term matches exactly the strings containing the term. -/
theorem likeFuel_percent_contains :
    ∀ (lit : List Char), metaFreeL lit = true →
      ∀ (s : List Char) (n : Nat), lit.length + 2 + s.length < n →
        likeFuel n ('%' :: (lit ++ ['%'])) s = containsL lit s := by
  intro lit hfree s
  induction s with
  | nil =>
    intro n h
    cases n with
    | zero => omega
    | succ m =>
      rw [likeFuel_cons, if_pos (by decide)]
      show (likeFuel m (lit ++ ['%']) [] || false) = containsL lit []
      rw [likeFuel_lit_percent lit hfree [] m (by simp at h ⊢; omega),
        Bool.or_false]
      cases lit <;> rfl
  | cons c t ih =>
    intro n h
    cases n with
    | zero => omega
    | succ m =>
      rw [likeFuel_cons, if_pos (by decide)]
      show (likeFuel m (lit ++ ['%']) (c :: t) ||
        likeFuel m ('%' :: (lit ++ ['%'])) t) = containsL lit (c :: t)
      rw [likeFuel_lit_percent lit hfree (c :: t) m (by simp at h ⊢; omega),
        ih m (by simp at h ⊢; omega)]
      rfl

/-- For a search term whose lowercase form has no LIKE metacharacter, the
ILIKE condition is exactly case-insensitive substring containment. -/
theorem sqlIlike_substring (term value : String)
    (h : metaFreeL (lowerStr term).data = true) :
    sqlIlike term value = containsStr (lowerStr term) (lowerStr value) := by
  rw [sqlIlike, likeMatch, containsStr]
  exact likeFuel_percent_contains (lowerStr term).data h (lowerStr value).data
    _ (by simp)

/-- The ILIKE search condition added only when the parameter is truthy,
characterized against the parameter option. -/
theorem search_filter_iff (o : Option String) (l : Listing) :
    (if paramOn o then
        sqlIlike (o.getD "") l.title || descMatches (o.getD "") l.description
      else true) = true ↔
      (∀ s, o = some s → s ≠ "" →
        (sqlIlike s l.title = true ∨
         ∃ d, l.description = some d ∧ sqlIlike s d = true)) := by
  cases o with
  | none => simp [paramOn, jsFalsy]
  | some c =>
    by_cases hc : c = ""
    · subst hc
      simp [paramOn, jsFalsy]
    · cases hd : l.description with
      | none => simp [paramOn, jsFalsy, hc, hd, descMatches]
      | some d => simp [paramOn, jsFalsy, hc, hd, descMatches]

/-- C6 counterexample, two parts.  A present category filter holding the
empty string is dropped by the truthiness test, so a listing whose
category differs from the filter value is kept.  And the search term is
interpolated into an ILIKE pattern, so its metacharacters stay active:
searching for an underscore keeps a listing although neither its title
nor its description contains one. -/
theorem list_filter_counterexample :
    (listListings ⟨some "", none, none⟩ [sampleListing1] = [sampleListing1] ∧
      sampleListing1.category ≠ "") ∧
    (listListings ⟨none, none, some "_"⟩ [sampleListing1] = [sampleListing1] ∧
      containsStr (lowerStr "_") (lowerStr sampleListing1.title) = false ∧
      containsStr (lowerStr "_")
        (lowerStr (sampleListing1.description.getD "")) = false) := by
  refine ⟨⟨by decide, by decide⟩, by decide, by decide, by decide⟩

/-- C6 (amended): a present nonempty category filter keeps exactly the
listings with that exact category, a present nonempty location filter
keeps exactly those whose stored county equals it, a present nonempty
search term keeps exactly those whose title or non-NULL description
matches the SQL pattern percent-term-percent case-insensitively — for a
term free of the LIKE metacharacters this is exactly case-insensitive
substring containment — present nonempty filters combine by conjunction,
an empty-valued filter is treated as absent, with no effective filter
every listing is returned, and both list and listMine are ordered by
creation timestamp descending. -/
theorem list_filters_spec (f : ListFilters) (rows : ListingDB) (uid : Nat) :
    (∀ l, l ∈ listListings f rows ↔ (l ∈ rows ∧
      (∀ c, f.category = some c → c ≠ "" → l.category = c) ∧
      (∀ c, f.location = some c → c ≠ "" → l.county = c) ∧
      (∀ s, f.search = some s → s ≠ "" →
        (sqlIlike s l.title = true ∨
         ∃ d, l.description = some d ∧ sqlIlike s d = true)))) ∧
    List.Sorted newerEq (listListings f rows) ∧
    (paramOn f.category = false → paramOn f.location = false →
      paramOn f.search = false → (listListings f rows).Perm rows) ∧
    List.Sorted newerEq (listMine uid rows) ∧
    (∀ l, l ∈ listMine uid rows ↔ (l ∈ rows ∧ l.user_id = uid)) ∧
    (∀ t v, metaFreeL (lowerStr t).data = true →
      sqlIlike t v = containsStr (lowerStr t) (lowerStr v)) := by
  refine ⟨fun l => ?_, ?_, fun h1 h2 h3 => ?_, ?_, fun l => ?_,
    fun t v ht => sqlIlike_substring t v ht⟩
  · rw [listListings, (List.perm_insertionSort newerEq _).mem_iff,
      List.mem_filter]
    rw [matchesFilters, Bool.and_eq_true, Bool.and_eq_true]
    rw [exact_filter_iff, exact_filter_iff, search_filter_iff]
    tauto
  · exact List.sorted_insertionSort newerEq _
  · have hfilter : ∀ l, matchesFilters f l = true := by
      intro l
      rw [matchesFilters, h1, h2, h3]
      rfl
    rw [listListings]
    refine (List.perm_insertionSort newerEq _).trans ?_
    rw [List.filter_eq_self.mpr fun a _ => hfilter a]
  · exact List.sorted_insertionSort newerEq _
  · rw [listMine, (List.perm_insertionSort newerEq _).mem_iff,
      List.mem_filter]
    simp

/-- Witness for the filter characterization: a category plus
case-insensitive search query keeps the matching listing, a filterless
query is a permutation of the whole table, and a metacharacter-free term
reduces to substring containment. -/
theorem list_filters_spec_witness :
    sampleListing1 ∈
      listListings ⟨some "apartment", none, some "COZY"⟩ sampleRows ∧
    (listListings ⟨none, none, none⟩ sampleRows).Perm sampleRows ∧
    sqlIlike "Cozy" "My cozy flat" =
      containsStr (lowerStr "Cozy") (lowerStr "My cozy flat") := by
  refine ⟨?_, ?_, ?_⟩
  · refine ((list_filters_spec ⟨some "apartment", none, some "COZY"⟩
      sampleRows 10).1 sampleListing1).mpr ⟨by decide, ?_, ?_, ?_⟩
    · intro c hc _
      cases hc
      rfl
    · intro c hc _
      cases hc
    · intro s hs _
      cases hs
      exact Or.inl (by decide)
  · exact (list_filters_spec ⟨none, none, none⟩ sampleRows 10).2.2.1 rfl rfl rfl
  · exact (list_filters_spec ⟨none, none, none⟩ sampleRows 10).2.2.2.2.2
      "Cozy" "My cozy flat" (by decide)

/-! ## Claim theorems about image upload (C8) -/

/-- A file multer accepts: image content type within the size limit. -/
def okFile (f : UploadFile) : Prop :=
  isImageFile f = true ∧ f.size ≤ fileSizeLimit

instance (f : UploadFile) : Decidable (okFile f) := by
  unfold okFile; infer_instance

theorem multerScan_over_limit :
    ∀ (files : List UploadFile) (count : Nat),
      (∀ f ∈ files.take (5 - count), okFile f) → count ≤ 5 →
      5 < count + files.length →
      multerScan count files = .error (.invalidInput "Too many files") := by
  intro files
  induction files with
  | nil => intro count _ hle hgt; simp at hgt; omega
  | cons f rest ih =>
    intro count hok hle hgt
    by_cases hc : count ≥ 5
    · rw [multerScan, if_pos hc]
    · have hcount : count < 5 := by omega
      have htake : (f :: rest).take (5 - count) =
          f :: rest.take (5 - count - 1) := by
        have h51 : 5 - count = (5 - count - 1) + 1 := by omega
        generalize hm : 5 - count - 1 = m at h51 ⊢
        rw [h51, List.take_succ_cons]
      have hf : okFile f := hok f (by rw [htake]; exact List.mem_cons_self f _)
      rw [multerScan, if_neg hc, if_neg (by simp [hf.1]),
        if_neg (by have h2 := hf.2; omega)]
      rw [ih (count + 1) (fun g hg => hok g (by
          rw [htake]
          exact List.mem_cons_of_mem f (by
            have h52 : 5 - count - 1 = 5 - (count + 1) := by omega
            rwa [h52]))) (by omega) (by simp at hgt ⊢; omega)]
      rfl

theorem multerScan_bad_type :
    ∀ (files : List UploadFile) (count : Nat),
      count + files.length ≤ 5 → (∀ f ∈ files, f.size ≤ fileSizeLimit) →
      (∃ f ∈ files, isImageFile f = false) →
      multerScan count files = .error .invalidFileType := by
  intro files
  induction files with
  | nil => intro count _ _ hex; simp at hex
  | cons f rest ih =>
    intro count hle hsize hex
    have hc : ¬ count ≥ 5 := by simp at hle; omega
    by_cases hf : isImageFile f = false
    · rw [multerScan, if_neg hc, if_pos (by simp [hf])]
    · have hfi : isImageFile f = true := by
        cases h : isImageFile f
        · exact absurd h hf
        · rfl
      obtain ⟨g, hg, hgbad⟩ := hex
      rcases List.mem_cons.mp hg with rfl | hgrest
      · exact absurd hgbad hf
      · rw [multerScan, if_neg hc, if_neg (by simp [hfi]),
          if_neg (by
            have := hsize f (List.mem_cons_self f rest)
            omega)]
        rw [ih (count + 1) (by simp at hle ⊢; omega)
          (fun g' hg' => hsize g' (List.mem_cons_of_mem f hg'))
          ⟨g, hgrest, hgbad⟩]
        rfl

theorem multerScan_too_large :
    ∀ (files : List UploadFile) (count : Nat),
      count + files.length ≤ 5 → (∀ f ∈ files, isImageFile f = true) →
      (∃ f ∈ files, fileSizeLimit < f.size) →
      multerScan count files = .error .tooLarge := by
  intro files
  induction files with
  | nil => intro count _ _ hex; simp at hex
  | cons f rest ih =>
    intro count hle himg hex
    have hc : ¬ count ≥ 5 := by simp at hle; omega
    have hfi : isImageFile f = true := himg f (List.mem_cons_self f rest)
    by_cases hf : fileSizeLimit < f.size
    · rw [multerScan, if_neg hc, if_neg (by simp [hfi]), if_pos hf]
    · obtain ⟨g, hg, hgbig⟩ := hex
      rcases List.mem_cons.mp hg with rfl | hgrest
      · exact absurd hgbig hf
      · rw [multerScan, if_neg hc, if_neg (by simp [hfi]), if_neg hf]
        rw [ih (count + 1) (by simp at hle ⊢; omega)
          (fun g' hg' => himg g' (List.mem_cons_of_mem f hg'))
          ⟨g, hgrest, hgbig⟩]
        rfl

theorem multerScan_all_ok :
    ∀ (files : List UploadFile) (count : Nat),
      count + files.length ≤ 5 → (∀ f ∈ files, okFile f) →
      multerScan count files = .ok files := by
  intro files
  induction files with
  | nil => intro count _ _; rfl
  | cons f rest ih =>
    intro count hle hok
    have hc : ¬ count ≥ 5 := by simp at hle; omega
    have hf := hok f (List.mem_cons_self f rest)
    rw [multerScan, if_neg hc, if_neg (by simp [hf.1]),
      if_neg (by have := hf.2; omega)]
    rw [ih (count + 1) (by simp at hle ⊢; omega)
      (fun g hg => hok g (List.mem_cons_of_mem f hg))]
    rfl

theorem buildUploads_length (uid : Nat) (now : Nat → Nat) (tok : Nat → String) :
    ∀ (files : List UploadFile) (start : Nat),
      (buildUploads uid now tok start files).length = files.length := by
  intro files
  induction files with
  | nil => intro start; rfl
  | cons f rest ih => intro start; simp [buildUploads, ih]

theorem buildUploads_get? (uid : Nat) (now : Nat → Nat) (tok : Nat → String) :
    ∀ (files : List UploadFile) (start i : Nat),
      (buildUploads uid now tok start files).get? i = (files.get? i).map
        fun f => (⟨storageKey uid (now (start + i)) (tok (start + i))
          f.originalname, f.mimetype, false⟩ : StorageUpload) := by
  intro files
  induction files with
  | nil => intro start i; rfl
  | cons f rest ih =>
    intro start i
    cases i with
    | zero => rfl
    | succ j =>
      rw [buildUploads]
      show (buildUploads uid now tok (start + 1) rest).get? j = _
      rw [ih (start + 1) j]
      have harith : start + 1 + j = start + (j + 1) := by omega
      rw [harith]
      rfl

theorem buildUploads_upsert (uid : Nat) (now : Nat → Nat) (tok : Nat → String) :
    ∀ (files : List UploadFile) (start : Nat) (r : StorageUpload),
      r ∈ buildUploads uid now tok start files → r.upsert = false := by
  intro files
  induction files with
  | nil => intro start r hr; simp [buildUploads] at hr
  | cons f rest ih =>
    intro start r hr
    rcases List.mem_cons.mp hr with rfl | hmem
    · rfl
    · exact ih (start + 1) r hmem

/-- C8: the upload route fails InvalidInput on zero files or on more than
five files, fails InvalidFileType when a file is not an image (all files
within the size limit), fails TooLarge when a file exceeds 5 MiB (all
files images); otherwise it succeeds with one public URL per input file in
input order, each derived from a key listings/uid/millis-token-filename,
and every storage upload is issued without overwrite permission. -/
theorem upload_images_spec (base : String) (uid : Nat) (now : Nat → Nat)
    (tok : Nat → String) (files : List UploadFile) :
    (files = [] →
      uploadImages base uid now tok files =
        .error (.invalidInput "No files uploaded")) ∧
    (5 < files.length → (∀ f ∈ files.take 5, okFile f) →
      uploadImages base uid now tok files =
        .error (.invalidInput "Too many files")) ∧
    (files.length ≤ 5 → (∀ f ∈ files, f.size ≤ fileSizeLimit) →
      (∃ f ∈ files, isImageFile f = false) →
      uploadImages base uid now tok files = .error .invalidFileType) ∧
    (files.length ≤ 5 → (∀ f ∈ files, isImageFile f = true) →
      (∃ f ∈ files, fileSizeLimit < f.size) →
      uploadImages base uid now tok files = .error .tooLarge) ∧
    (1 ≤ files.length → files.length ≤ 5 → (∀ f ∈ files, okFile f) →
      ∃ reqs urls, uploadImages base uid now tok files = .ok (reqs, urls) ∧
        reqs.length = files.length ∧ urls.length = files.length ∧
        (∀ i f, files.get? i = some f →
          reqs.get? i = some ⟨storageKey uid (now i) (tok i) f.originalname,
            f.mimetype, false⟩ ∧
          urls.get? i = some (publicUrl base
            (storageKey uid (now i) (tok i) f.originalname))) ∧
        (∀ r ∈ reqs, r.upsert = false)) := by
  refine ⟨fun hnil => ?_, fun hgt hok => ?_, fun hle hsize hex => ?_,
    fun hle himg hex => ?_, fun hge hle hok => ?_⟩
  · subst hnil; rfl
  · rw [uploadImages, multerScan_over_limit files 0 (by simpa using hok)
      (by omega) (by omega)]
  · rw [uploadImages, multerScan_bad_type files 0 (by omega) hsize hex]
  · rw [uploadImages, multerScan_too_large files 0 (by omega) himg hex]
  · refine ⟨buildUploads uid now tok 0 files,
      (buildUploads uid now tok 0 files).map fun r => publicUrl base r.key,
      ?_, ?_, ?_, ?_, ?_⟩
    · have h0 : (files.length == 0) = false := by
        cases files
        · simp at hge
        · rfl
      simp only [uploadImages, multerScan_all_ok files 0 (by omega) hok]
      rw [if_neg (by rw [h0]; simp),
        if_neg (by simp only [decide_eq_true_eq]; omega)]
    · exact buildUploads_length uid now tok files 0
    · rw [List.length_map]
      exact buildUploads_length uid now tok files 0
    · intro i f hf
      have hreq := buildUploads_get? uid now tok files 0 i
      rw [hf] at hreq
      have hz : (0 : Nat) + i = i := by omega
      rw [hz] at hreq
      refine ⟨hreq, ?_⟩
      rw [List.get?_map, hreq]
      rfl
    · exact fun r hr => buildUploads_upsert uid now tok files 0 r hr

/-- Witness for the upload theorem: two valid image files succeed, with
the expected keys and URLs at both indices; the empty upload fails. -/
theorem upload_images_spec_witness :
    (∃ reqs urls,
      uploadImages "https://s" 9 (fun i => 1000 + i)
        (fun i => String.append "t" (toString i)) sampleFiles =
        .ok (reqs, urls) ∧
      reqs.length = sampleFiles.length ∧ urls.length = sampleFiles.length ∧
      (∀ i f, sampleFiles.get? i = some f →
        reqs.get? i = some ⟨storageKey 9 (1000 + i)
          (String.append "t" (toString i)) f.originalname,
          f.mimetype, false⟩ ∧
        urls.get? i = some (publicUrl "https://s" (storageKey 9 (1000 + i)
          (String.append "t" (toString i)) f.originalname))) ∧
      (∀ r ∈ reqs, r.upsert = false)) ∧
    uploadImages "https://s" 9 (fun i => 1000 + i)
      (fun i => String.append "t" (toString i)) [] =
      .error (.invalidInput "No files uploaded") := by
  constructor
  · exact (upload_images_spec "https://s" 9 (fun i => 1000 + i)
      (fun i => String.append "t" (toString i)) sampleFiles).2.2.2.2
      (by decide) (by decide) (by decide)
  · exact (upload_images_spec "https://s" 9 (fun i => 1000 + i)
      (fun i => String.append "t" (toString i)) []).1 rfl

/-! ## Claim theorems about login uniformity (C4) -/

/-- C4: for a well-formed login body, an unregistered email and a
registered email with a wrong password produce the same response in both
auth route variants: status 401 with the message Invalid email or
password, so the two cases are indistinguishable to the client. -/
theorem login_uniform_unauthorized (db : UserDB) (email password : String)
    (secret : Option String) :
    email ≠ "" → password ≠ "" →
    ((db.find? (fun u => u.email == trimStr (lowerStr email)) = none →
      loginA db email password secret =
        .error ⟨401, "Invalid email or password"⟩ ∧
      loginB db email password secret =
        .error ⟨401, "Invalid email or password"⟩) ∧
     (∀ u, db.find? (fun u => u.email == trimStr (lowerStr email)) = some u →
      bcryptCompare password u.password = false →
      loginA db email password secret =
        .error ⟨401, "Invalid email or password"⟩ ∧
      loginB db email password secret =
        .error ⟨401, "Invalid email or password"⟩)) := by
  intro he hp
  constructor
  · intro hfind
    constructor
    · simp only [loginA, hfind]
      rw [if_neg (by simp [he, hp])]
    · simp only [loginB, hfind]
      rw [if_neg (by simp [he, hp])]
  · intro u hfind hcmp
    constructor
    · simp only [loginA, hfind]
      rw [if_neg (by simp [he, hp]), if_pos (by simp [hcmp])]
    · simp only [loginB, hfind]
      rw [if_neg (by simp [he, hp]), if_pos (by simp [hcmp])]

/-- Witness for login uniformity: with one registered user, an unknown
email and a wrong password for the known email both answer the same 401
response. -/
theorem login_uniform_unauthorized_witness :
    loginA [sampleUser] "x@y.z" "whatever" (some "k") =
      .error ⟨401, "Invalid email or password"⟩ ∧
    loginB [sampleUser] "a@b.c" "wrongpass" (some "k") =
      .error ⟨401, "Invalid email or password"⟩ := by
  constructor
  · exact ((login_uniform_unauthorized [sampleUser] "x@y.z" "whatever"
      (some "k") (by decide) (by decide)).1 (by decide)).1
  · exact ((login_uniform_unauthorized [sampleUser] "a@b.c" "wrongpass"
      (some "k") (by decide) (by decide)).2 sampleUser (by decide)
      (by decide)).2

/-! ## Claim theorems about the signing secret (C2) -/

/-- C2 counterexample: a present secret of 3 characters is below the
20-character minimum, yet login of src/routes/auth.js signs and returns a
token with it. -/
theorem signing_secret_short_counterexample :
    loginA [sampleUser] "a@b.c" "hunter22" (some "abc") =
      .ok ⟨"Login successful", ⟨1, "Ann", "a@b.c", "0700111222"⟩,
        ⟨1, "a@b.c", "abc", 7⟩⟩ ∧
    ("abc" : String).length < 20 := by
  refine ⟨by decide, by decide⟩

/-- C2 (amended): with the secret absent, no variant of register or login
ever signs a token, the check being made against the current environment
on every call; only the part_001 register additionally rejects a present
secret shorter than 20 characters with ServerMisconfigured; in the other
three handlers a present secret of any length reaches signing, and on the
otherwise-successful paths the absent-secret failure is exactly status 500
with the configuration error message of each handler. -/
theorem signing_secret_guard (db : UserDB) (name email phone password : String)
    (secret : Option String) (salt now newId : Nat) :
    (secretFalsy secret = true →
      (registerA db name email phone password secret salt now newId).1.isOk
        = false ∧
      (registerB db name email phone password secret salt now newId).1.isOk
        = false ∧
      (loginA db email password secret).isOk = false ∧
      (loginB db email password secret).isOk = false) ∧
    (∀ s, secret = some s → s.length < 20 →
      (registerB db name email phone password secret salt now newId).1.isOk
        = false) ∧
    (name ≠ "" → email ≠ "" → phone ≠ "" → password ≠ "" →
      ¬ password.length < 6 →
      (db.filter fun u => u.email == trimStr (lowerStr email)).isEmpty = true →
      secretFalsy secret = true →
      (registerA db name email phone password secret salt now newId).1 =
        .error ⟨500, "Server configuration error"⟩) ∧
    (name ≠ "" → email ≠ "" → phone ≠ "" → password ≠ "" →
      ¬ (trimStr password).length < 6 →
      (db.filter fun u => u.email == trimStr (lowerStr email)).isEmpty = true →
      (secret.getD "").length < 20 →
      (registerB db name email phone password secret salt now newId).1 =
        .error ⟨500, "Server configuration error. Contact admin."⟩) ∧
    (∀ u, email ≠ "" → password ≠ "" →
      db.find? (fun u => u.email == trimStr (lowerStr email)) = some u →
      bcryptCompare password u.password = true →
      secretFalsy secret = true →
      loginA db email password secret = .error ⟨500, "Server configuration error"⟩ ∧
      loginB db email password secret = .error ⟨500, "Server error"⟩) := by
  refine ⟨fun hs => ⟨?_, ?_, ?_, ?_⟩, fun s hsec hlen => ?_,
    fun h1 h2 h3 h4 h5 h6 hs => ?_, fun h1 h2 h3 h4 h5 h6 hlen => ?_,
    fun u he hp hfind hcmp hs => ⟨?_, ?_⟩⟩
  · simp only [registerA]
    repeat' split
    all_goals rfl
  · simp only [registerB]
    repeat' split
    all_goals try rfl
    all_goals simp_all
  · simp only [loginA]
    repeat' split
    all_goals rfl
  · simp only [loginB]
    repeat' split
    all_goals rfl
  · subst hsec
    simp only [registerB]
    repeat' split
    all_goals try rfl
    all_goals simp_all
  · simp only [registerA]
    rw [if_neg (by simp [h1, h2, h3, h4]), if_neg h5,
      if_neg (by simp [h6]), if_pos hs]
  · simp only [registerB]
    rw [if_neg (by simp [h1, h2, h3, h4]), if_neg h5,
      if_neg (by simp [h6]), if_pos (by simp [hlen])]
  · simp only [loginA, hfind]
    rw [if_neg (by simp [he, hp]), if_neg (by simp [hcmp]), if_pos hs]
  · simp only [loginB, hfind]
    rw [if_neg (by simp [he, hp]), if_neg (by simp [hcmp]), if_pos hs]

/-- Witness for the signing secret guard: an absent secret makes
registerA answer exactly ServerMisconfigured after a valid registration,
and a 4-character secret makes registerB refuse to sign. -/
theorem signing_secret_guard_witness :
    (registerA [] "Ann" "a@b.c" "0700111222" "hunter22" none 3 50 1).1 =
      .error ⟨500, "Server configuration error"⟩ ∧
    (registerB [] "Ann" "a@b.c" "0700111222" "hunter22" (some "tiny") 3 50 1).1.isOk
      = false := by
  constructor
  · exact (signing_secret_guard [] "Ann" "a@b.c" "0700111222" "hunter22"
      none 3 50 1).2.2.1 (by decide) (by decide) (by decide) (by decide)
      (by decide) (by decide) rfl
  · exact (signing_secret_guard [] "Ann" "a@b.c" "0700111222" "hunter22"
      (some "tiny") 3 50 1).2.1 "tiny" rfl (by decide)

/-! ## Claim theorems about password handling (C5 and C10) -/

/-- C5: the part_001 register handler logs the whole request body on
entry, so the plaintext password appears in the console log even though
only the cost-12 bcrypt hash is persisted and the response user object
carries no password field.  The claim says the plaintext is never written
to the log; this run shows it is. -/
theorem register_logs_plaintext_password :
    ((registerB [] "Ann" "a@b.c" "0700111222" "hunter22"
        (some "01234567890123456789x") 3 50 1).2.2.any
      (fun e => containsStr "hunter22" e)) = true ∧
    (registerB [] "Ann" "a@b.c" "0700111222" "hunter22"
        (some "01234567890123456789x") 3 50 1).2.1 =
      [⟨1, "Ann", "a@b.c", "0700111222", .bcrypt 12 3 "hunter22", 50⟩] ∧
    (registerB [] "Ann" "a@b.c" "0700111222" "hunter22"
        (some "01234567890123456789x") 3 50 1).1 =
      .ok ⟨"Registration successful!", ⟨1, "Ann", "a@b.c", "0700111222"⟩,
        ⟨1, "a@b.c", "01234567890123456789x", 30⟩⟩ := by
  refine ⟨by decide, by decide, by decide⟩

/-- C10 counterexample: src/routes/auth.js checks the untrimmed password
length, so a 6-character password whose trimmed length is 5 is accepted
and a user row is persisted for it. -/
theorem short_password_rejected_counterexample :
    (registerA [] "Ann" "a@b.c" "0700111222" "12345 " (some "s") 3 50 1).1.isOk
      = true ∧
    (registerA [] "Ann" "a@b.c" "0700111222" "12345 " (some "s") 3 50 1).2 =
      [⟨1, "Ann", "a@b.c", "0700111222", .bcrypt 12 3 "12345 ", 50⟩] ∧
    (trimStr "12345 ").length < 6 := by
  refine ⟨by decide, by decide, by decide⟩

/-- C10 (amended): the part_001 register rejects a password whose trimmed
length is below 6 with InvalidInput before any persistence, leaving the
user table unchanged; the src/routes/auth.js register applies the same
rejection only to the untrimmed length. -/
theorem short_password_rejected (db : UserDB) (name email phone password : String)
    (secret : Option String) (salt now newId : Nat) :
    ((trimStr password).length < 6 →
      (∃ msg, (registerB db name email phone password secret salt now newId).1 =
        .error ⟨400, msg⟩) ∧
      (registerB db name email phone password secret salt now newId).2.1 = db) ∧
    (password.length < 6 →
      (∃ msg, (registerA db name email phone password secret salt now newId).1 =
        .error ⟨400, msg⟩) ∧
      (registerA db name email phone password secret salt now newId).2 = db) := by
  constructor
  · intro h
    simp only [registerB]
    by_cases h1 : (name == "" || email == "" || phone == "" ||
        password == "") = true
    · rw [if_pos h1]
      exact ⟨⟨"All fields are required", rfl⟩, rfl⟩
    · rw [if_neg h1, if_pos h]
      exact ⟨⟨"Password must be at least 6 characters", rfl⟩, rfl⟩
  · intro h
    simp only [registerA]
    by_cases h1 : (name == "" || email == "" || phone == "" ||
        password == "") = true
    · rw [if_pos h1]
      exact ⟨⟨"All fields are required", rfl⟩, rfl⟩
    · rw [if_neg h1, if_pos h]
      exact ⟨⟨"Password must be at least 6 characters", rfl⟩, rfl⟩

/-- Witness for the short password theorem: a 5-character password is
rejected by both handlers and nothing is persisted. -/
theorem short_password_rejected_witness :
    ((∃ msg, (registerB [] "Ann" "a@b.c" "0700" "abc12" none 3 50 1).1 =
      Except.error ⟨400, msg⟩) ∧
     (registerB [] "Ann" "a@b.c" "0700" "abc12" none 3 50 1).2.1 = []) ∧
    ((∃ msg, (registerA [] "Ann" "a@b.c" "0700" "abc12" none 3 50 1).1 =
      Except.error ⟨400, msg⟩) ∧
     (registerA [] "Ann" "a@b.c" "0700" "abc12" none 3 50 1).2 = []) := by
  constructor
  · exact (short_password_rejected [] "Ann" "a@b.c" "0700" "abc12"
      none 3 50 1).1 (by decide)
  · exact (short_password_rejected [] "Ann" "a@b.c" "0700" "abc12"
      none 3 50 1).2 (by decide)

end NVH
